import Mathlib

/-!
Verification of the PFGM-CompositeGraviton scripts.

Shallow embedding of the three Python scripts in `src/scripts/`:

* `check_spin2_structure.py` — the tensor-contraction sampler,
* `scan_healthy_band.py`      — the parameter-grid scanner,
* `make_all_figures_and_tables.py` — the report generator.

Real numbers in the scripts are modelled by `ℚ`; every numeric literal the
scripts use (halves, tenths, the tolerances 1e-8 / 1e-9 / 1e-10 / 1e-12) is
an exact rational, so the embedded arithmetic agrees with the scripts on the
properties stated below.  Fallible code (the `ValueError` raised by
`theta_tensor`) is modelled with `Option`.
-/

/-- Embeds the skip tolerance `1e-8` of the sampler main loop
(`check_spin2_structure.py`, line 111). -/
def skip_tol : ℚ := 1 / 100000000

/-- Embeds the domain-error tolerance `1e-10` of `theta_tensor`
(`check_spin2_structure.py`, line 51). -/
def theta_tol : ℚ := 1 / 10000000000

/-- Embeds the end-condition pad `1e-9` of `frange`
(`scan_healthy_band.py`, line 28). -/
def frange_pad : ℚ := 1 / 1000000000

/-- Embeds the zero-band tolerance `1e-12` of `make_table_spin2_F2_stats`
(`make_all_figures_and_tables.py`, line 155). -/
def zero_tol : ℚ := 1 / 1000000000000

/-! ## check_spin2_structure.py -/

/-- Embeds Python's built-in `abs` on reals, written so that it evaluates
on concrete rationals. -/
def pyabs (x : ℚ) : ℚ := if x < 0 then -x else x

/-- Embeds the Minkowski metric `eta` with signature (-,+,+,+)
(`check_spin2_structure.py`, lines 33-36). -/
def eta : Fin 4 → Fin 4 → ℚ :=
  ![![-1, 0, 0, 0],
    ![ 0, 1, 0, 0],
    ![ 0, 0, 1, 0],
    ![ 0, 0, 0, 1]]

/-- Embeds `minkowski_k2` (`check_spin2_structure.py`, lines 44-46):
`k^2 = -k[0]^2 + k[1]^2 + k[2]^2 + k[3]^2`. -/
def minkowski_k2 (k : Fin 4 → ℚ) : ℚ :=
  -k 0 * k 0 + (k 1 * k 1 + k 2 * k 2 + k 3 * k 3)

/-- Embeds the loop body of `theta_tensor` (`check_spin2_structure.py`,
lines 53-57): `theta[mu][nu] = (eta[mu][nu] if mu == nu else 0) -
k[mu]*k[nu]/k2`.  This is the tensor built after the guard has passed; in
guarded contexts `minkowski_k2 k ≠ 0`, so the division is the script's. -/
def theta_fun (k : Fin 4 → ℚ) : Fin 4 → Fin 4 → ℚ := fun μ ν =>
  (if μ = ν then eta μ ν else 0) - k μ * k ν / minkowski_k2 k

/-- Embeds `theta_tensor` (`check_spin2_structure.py`, lines 48-58); the
`ValueError` raised when `|k^2| < 1e-10` becomes `none`. -/
def theta_tensor (k : Fin 4 → ℚ) : Option (Fin 4 → Fin 4 → ℚ) :=
  if pyabs (minkowski_k2 k) < theta_tol then none else some (theta_fun k)

/-- Embeds the loop body of `P2_tensor` (`check_spin2_structure.py`,
lines 63-71), as a function of the already-built `theta`:
`P2 = 0.5*(θ[μ][ρ]θ[ν][σ] + θ[μ][σ]θ[ν][ρ]) - (1/3)*θ[μ][ν]θ[ρ][σ]`. -/
def P2fun (θ : Fin 4 → Fin 4 → ℚ) : Fin 4 → Fin 4 → Fin 4 → Fin 4 → ℚ :=
  fun μ ν ρ σ =>
    1/2 * (θ μ ρ * θ ν σ + θ μ σ * θ ν ρ) - 1/3 * (θ μ ν * θ ρ σ)

/-- Embeds `P2_tensor` (`check_spin2_structure.py`, lines 60-72): builds
`theta` (propagating its domain error) and fills the rank-4 projector. -/
def P2_tensor (k : Fin 4 → ℚ) : Option (Fin 4 → Fin 4 → Fin 4 → Fin 4 → ℚ) :=
  (theta_tensor k).map P2fun

/-- Embeds `N_tensor` (`check_spin2_structure.py`, lines 74-84):
`N[μ][ν][ρ][σ] = (q[μ]k[ν]+q[ν]k[μ])(q[ρ]k[σ]+q[σ]k[ρ])`. -/
def N_tensor (q k : Fin 4 → ℚ) : Fin 4 → Fin 4 → Fin 4 → Fin 4 → ℚ :=
  fun μ ν ρ σ => (q μ * k ν + q ν * k μ) * (q ρ * k σ + q σ * k ρ)

/-- The four index values iterated by the Python `range(4)` loops. -/
def idx4 : List (Fin 4) := [0, 1, 2, 3]

/-- Embeds `contract_P2_N` (`check_spin2_structure.py`, lines 86-96): the
plain sum of elementwise products over all 256 index tuples (no metric
raising, exactly as in the script). -/
def contract_P2_N (P2 N : Fin 4 → Fin 4 → Fin 4 → Fin 4 → ℚ) : ℚ :=
  (idx4.map fun μ =>
    (idx4.map fun ν =>
      (idx4.map fun ρ =>
        (idx4.map fun σ => P2 μ ν ρ σ * N μ ν ρ σ).sum).sum).sum).sum

/-- Embeds the fixed reference vector `q = [q0, 0, 0, 0]` with `q0 = 1.0`
(`check_spin2_structure.py`, lines 99-100). -/
def qref : Fin 4 → ℚ := ![1, 0, 0, 0]

/-- Embeds the swept `omega` values (`check_spin2_structure.py`, line 105). -/
def sweepOmega : List ℚ := [1/2, 1, 3/2, 2]

/-- Embeds the swept `kx` values (`check_spin2_structure.py`, line 106). -/
def sweepKx : List ℚ := [1/2, 1, 3/2]

/-- Embeds the swept `ky` values (`check_spin2_structure.py`, line 107). -/
def sweepKy : List ℚ := [0]

/-- Embeds the swept `kz` values (`check_spin2_structure.py`, line 108). -/
def sweepKz : List ℚ := [0]

/-- The sampler's enumerated set of swept four-vectors `k = [omega, kx, ky,
kz]` (`check_spin2_structure.py`, lines 105-109), before any filtering. -/
def sweepKs : List (Fin 4 → ℚ) :=
  sweepOmega.flatMap fun omega =>
    sweepKx.flatMap fun kx =>
      sweepKy.flatMap fun ky =>
        sweepKz.map fun kz => ![omega, kx, ky, kz]

/-- One output row of the sampler: the columns of
`data/spin2_F2_samples.csv` (`check_spin2_structure.py`, lines 117-124). -/
structure SampleRec where
  omega : ℚ
  kx : ℚ
  ky : ℚ
  kz : ℚ
  k2 : ℚ
  F2 : ℚ
deriving DecidableEq

/-- Embeds the sampler main loop (`check_spin2_structure.py`, lines
105-126): for each swept vector, skip if `|k2| < 1e-8`; skip if
`P2_tensor` raises (`ValueError` modelled by `none`); otherwise contract
and append one record.  `continue` becomes the empty list, `append` a
singleton. -/
def sampleRows : List SampleRec :=
  sweepOmega.flatMap fun omega =>
    sweepKx.flatMap fun kx =>
      sweepKy.flatMap fun ky =>
        sweepKz.flatMap fun kz =>
          let k : Fin 4 → ℚ := ![omega, kx, ky, kz]
          let k2 := minkowski_k2 k
          if pyabs k2 < skip_tol then []
          else
            match P2_tensor k with
            | none => []
            | some P2 =>
              let N := N_tensor qref k
              let F2val := contract_P2_N P2 N
              [{ omega := omega, kx := kx, ky := ky, kz := kz,
                 k2 := k2, F2 := F2val }]

/-! ## scan_healthy_band.py -/

/-- Embeds the background constant `X0 = 1.0`
(`scan_healthy_band.py`, line 17). -/
def X0 : ℚ := 1

/-- Embeds `PPRIME_MIN` (`scan_healthy_band.py`, line 20). -/
def PPRIME_MIN : ℚ := -2

/-- Embeds `PPRIME_MAX` (`scan_healthy_band.py`, line 20). -/
def PPRIME_MAX : ℚ := 2

/-- Embeds `PPRIME_STEP` (`scan_healthy_band.py`, line 20). -/
def PPRIME_STEP : ℚ := 1/10

/-- Embeds `P2PRIME_MIN` (`scan_healthy_band.py`, line 21). -/
def P2PRIME_MIN : ℚ := -2

/-- Embeds `P2PRIME_MAX` (`scan_healthy_band.py`, line 21). -/
def P2PRIME_MAX : ℚ := 2

/-- Embeds `P2PRIME_STEP` (`scan_healthy_band.py`, line 21). -/
def P2PRIME_STEP : ℚ := 1/10

/-- Body of the `frange` while-loop (`scan_healthy_band.py`, lines 25-30),
with an explicit fuel bounding the number of iterations; the loop itself
stops by its condition `x <= stop + 1e-9`.  Every call in this file steps
by `1/10` across `[-2, 2]` and runs exactly 41 iterations, far below the
fuel supplied by `frange`. -/
def frangeAux (stop step : ℚ) : Nat → ℚ → List ℚ
  | 0, _ => []
  | fuel + 1, x =>
    if x ≤ stop + frange_pad then x :: frangeAux stop step fuel (x + step)
    else []

/-- Embeds the generator `frange` (`scan_healthy_band.py`, lines 25-30). -/
def frange (start stop step : ℚ) : List ℚ :=
  frangeAux stop step 10000 start

/-- One output row of the scanner: the columns of
`data/healthy_band_scan.csv` (`scan_healthy_band.py`, lines 34-51); `cs2`
is `none` where the script writes the empty field. -/
structure GridRec where
  Pprime : ℚ
  P2prime : ℚ
  Zs : ℚ
  Zt : ℚ
  cs2 : Option ℚ
  ghost_ok : Bool
  grad_ok : Bool
deriving DecidableEq

/-- Embeds the body of the scanner's grid loop (`scan_healthy_band.py`,
lines 37-51): `Zs = Pprime`, `Zt = Pprime + 2.0*X0*P2prime`,
`ghost_ok = Zt > 0`, `grad_ok = Zs > 0`, and `cs2 = Zs/Zt` only when
`ghost_ok`. -/
def mkGridRec (Pprime P2prime : ℚ) : GridRec :=
  let Zs := Pprime
  let Zt := Pprime + 2 * X0 * P2prime
  let ghost_ok : Bool := decide (Zt > 0)
  let grad_ok : Bool := decide (Zs > 0)
  let cs2 : Option ℚ := if ghost_ok then some (Zs / Zt) else none
  { Pprime := Pprime, P2prime := P2prime, Zs := Zs, Zt := Zt,
    cs2 := cs2, ghost_ok := ghost_ok, grad_ok := grad_ok }

/-- Embeds the scanner main loop (`scan_healthy_band.py`, lines 35-51):
one record per `(Pprime, P2prime)` pair of the two stepped ranges, in
nested-loop order, with no skipping. -/
def scanRows : List GridRec :=
  (frange PPRIME_MIN PPRIME_MAX PPRIME_STEP).flatMap fun Pprime =>
    (frange P2PRIME_MIN P2PRIME_MAX P2PRIME_STEP).map fun P2prime =>
      mkGridRec Pprime P2prime

/-! ## make_all_figures_and_tables.py -/

/-- Embeds the literal `X0 = 1.0` that `make_fig_healthy_band` duplicates
(`make_all_figures_and_tables.py`, line 75). -/
def report_X0 : ℚ := 1

/-- Embeds the derived scalar field of `make_fig_healthy_band`
(`make_all_figures_and_tables.py`, line 77): `y = p + 2.0 * X0 * p2` with
the report generator's own `X0` literal. -/
def healthy_band_y (p p2 : ℚ) : ℚ := p + 2 * report_X0 * p2

/-- Embeds `total = len(F2)` of `make_table_spin2_F2_stats`
(`make_all_figures_and_tables.py`, line 152). -/
def spin2_total (F2 : List ℚ) : Nat := F2.length

/-- Embeds `n_pos = sum(1 for v in F2 if v > 0.0)`
(`make_all_figures_and_tables.py`, line 153). -/
def spin2_n_pos (F2 : List ℚ) : Nat := F2.countP fun v => decide (v > 0)

/-- Embeds `n_neg = sum(1 for v in F2 if v < 0.0)`
(`make_all_figures_and_tables.py`, line 154). -/
def spin2_n_neg (F2 : List ℚ) : Nat := F2.countP fun v => decide (v < 0)

/-- Embeds `n_zero = sum(1 for v in F2 if abs(v) < 1e-12)`
(`make_all_figures_and_tables.py`, line 155). -/
def spin2_n_zero (F2 : List ℚ) : Nat :=
  F2.countP fun v => decide (pyabs v < zero_tol)

/-! ## Concrete inputs used by the witnesses -/

/-- The swept vector `(2.0, 1.0, 0.0, 0.0)` named by the spec's concrete
test, with `norm2 = -3`. -/
def kEx : Fin 4 → ℚ := ![2, 1, 0, 0]

/-- The swept vector `(1.0, 1.0, 0.0, 0.0)` named by the spec's concrete
test, with `norm2 = 0`. -/
def kNull : Fin 4 → ℚ := ![1, 1, 0, 0]

/-- The first record the scanner writes: grid point `(-2, -2)`. -/
def gr0 : GridRec := mkGridRec (-2) (-2)

/-! ## Helper lemmas -/

/-- The embedded `abs` agrees with Mathlib's absolute value. -/
lemma pyabs_eq_abs (x : ℚ) : pyabs x = |x| := by
  unfold pyabs
  rcases lt_or_le x 0 with h | h
  · rw [if_pos h, abs_of_neg h]
  · rw [if_neg (not_lt.mpr h), abs_of_nonneg h]

/-- The rank-2 tensor built by `theta_tensor` is symmetric in its two
indices. -/
lemma theta_fun_symm (k : Fin 4 → ℚ) (μ ν : Fin 4) :
    theta_fun k μ ν = theta_fun k ν μ := by
  unfold theta_fun
  rcases eq_or_ne μ ν with h | h
  · subst h; ring
  · rw [if_neg h, if_neg (Ne.symm h)]; ring

/-- `P2fun` of any symmetric rank-2 tensor is symmetric in its first index
pair. -/
lemma P2fun_symm_left (θ : Fin 4 → Fin 4 → ℚ) (hs : ∀ a b, θ a b = θ b a)
    (μ ν ρ σ : Fin 4) : P2fun θ μ ν ρ σ = P2fun θ ν μ ρ σ := by
  unfold P2fun
  rw [hs ν μ]
  ring

/-- `P2fun` of any symmetric rank-2 tensor is symmetric in its second index
pair. -/
lemma P2fun_symm_right (θ : Fin 4 → Fin 4 → ℚ) (hs : ∀ a b, θ a b = θ b a)
    (μ ν ρ σ : Fin 4) : P2fun θ μ ν ρ σ = P2fun θ μ ν σ ρ := by
  unfold P2fun
  rw [hs σ ρ]
  ring

/-- `P2fun` of any symmetric rank-2 tensor is symmetric under exchange of
its two index pairs. -/
lemma P2fun_symm_exchange (θ : Fin 4 → Fin 4 → ℚ) (hs : ∀ a b, θ a b = θ b a)
    (μ ν ρ σ : Fin 4) : P2fun θ μ ν ρ σ = P2fun θ ρ σ μ ν := by
  unfold P2fun
  rw [hs ρ μ, hs σ ν, hs ρ ν, hs σ μ]
  ring

/-- When the domain guard passes, `theta_tensor` succeeds with the tensor
`theta_fun k`, and `P2_tensor` with `P2fun` of it. -/
lemma theta_tensor_of_guard (k : Fin 4 → ℚ)
    (h : theta_tol ≤ pyabs (minkowski_k2 k)) :
    theta_tensor k = some (theta_fun k)
    ∧ P2_tensor k = some (P2fun (theta_fun k)) := by
  unfold P2_tensor theta_tensor
  rw [if_neg (not_lt.mpr h)]
  exact ⟨rfl, rfl⟩

/-! ## Claim theorems -/

/-- C2: for every four-vector k with |k^2| >= 1e-10 (hence any valid
theta), the rank-4 projector built by `P2_tensor` satisfies
`P[μ][ν][ρ][σ] = P[ν][μ][ρ][σ]` and `P[μ][ν][ρ][σ] = P[μ][ν][σ][ρ]` for
all 256 index tuples. -/
theorem P2_tensor_pairwise_symm (k : Fin 4 → ℚ)
    (h : theta_tol ≤ pyabs (minkowski_k2 k)) (μ ν ρ σ : Fin 4) :
    P2_tensor k = some (P2fun (theta_fun k))
    ∧ P2fun (theta_fun k) μ ν ρ σ = P2fun (theta_fun k) ν μ ρ σ
    ∧ P2fun (theta_fun k) μ ν ρ σ = P2fun (theta_fun k) μ ν σ ρ :=
  ⟨(theta_tensor_of_guard k h).2,
   P2fun_symm_left _ (theta_fun_symm k) μ ν ρ σ,
   P2fun_symm_right _ (theta_fun_symm k) μ ν ρ σ⟩

/-- Witness for C2 at the concrete swept vector `(2,1,0,0)`. -/
theorem P2_tensor_pairwise_symm_witness :
    theta_tol ≤ pyabs (minkowski_k2 kEx)
    ∧ (P2_tensor kEx = some (P2fun (theta_fun kEx))
       ∧ P2fun (theta_fun kEx) 0 1 2 3 = P2fun (theta_fun kEx) 1 0 2 3
       ∧ P2fun (theta_fun kEx) 0 1 2 3 = P2fun (theta_fun kEx) 0 1 3 2) :=
  ⟨of_decide_eq_true (by with_unfolding_all rfl),
   P2_tensor_pairwise_symm kEx (of_decide_eq_true (by with_unfolding_all rfl)) 0 1 2 3⟩

/-- C9: `theta_tensor` yields a symmetric rank-2 tensor, and consequently
the rank-4 projector is also symmetric under exchange of its index pairs,
`P[μ][ν][ρ][σ] = P[ρ][σ][μ][ν]`, for every k with |k^2| >= 1e-10. -/
theorem theta_symm_and_pair_exchange (k : Fin 4 → ℚ)
    (h : theta_tol ≤ pyabs (minkowski_k2 k)) (μ ν ρ σ : Fin 4) :
    theta_tensor k = some (theta_fun k)
    ∧ theta_fun k μ ν = theta_fun k ν μ
    ∧ P2fun (theta_fun k) μ ν ρ σ = P2fun (theta_fun k) ρ σ μ ν :=
  ⟨(theta_tensor_of_guard k h).1,
   theta_fun_symm k μ ν,
   P2fun_symm_exchange _ (theta_fun_symm k) μ ν ρ σ⟩

/-- Witness for C9 at the concrete swept vector `(2,1,0,0)`. -/
theorem theta_symm_and_pair_exchange_witness :
    theta_tol ≤ pyabs (minkowski_k2 kEx)
    ∧ (theta_tensor kEx = some (theta_fun kEx)
       ∧ theta_fun kEx 0 1 = theta_fun kEx 1 0
       ∧ P2fun (theta_fun kEx) 0 1 2 3 = P2fun (theta_fun kEx) 2 3 0 1) :=
  ⟨of_decide_eq_true (by with_unfolding_all rfl),
   theta_symm_and_pair_exchange kEx (of_decide_eq_true (by with_unfolding_all rfl)) 0 1 2 3⟩

/-- C6: `theta_tensor` raises its domain error exactly when
|k^2| < 1e-10, and every vector passing the sampler's outer
|norm2| >= 1e-8 filter makes the error branch unreachable (1e-8 > 1e-10),
so `P2_tensor` succeeds on every retained sample. -/
theorem theta_tensor_guard (k : Fin 4 → ℚ) :
    (theta_tensor k = none ↔ pyabs (minkowski_k2 k) < theta_tol)
    ∧ (skip_tol ≤ pyabs (minkowski_k2 k) →
        P2_tensor k = some (P2fun (theta_fun k))) := by
  constructor
  · unfold theta_tensor
    by_cases h : pyabs (minkowski_k2 k) < theta_tol
    · simp [h]
    · simp [h]
  · intro h
    have h10 : theta_tol ≤ pyabs (minkowski_k2 k) :=
      le_trans (by norm_num [theta_tol, skip_tol]) h
    exact (theta_tensor_of_guard k h10).2

/-- Witness for C6: the error test at the null vector `(1,1,0,0)` and the
filter-passing conclusion at `(2,1,0,0)`. -/
theorem theta_tensor_guard_witness :
    (theta_tensor kNull = none ↔ pyabs (minkowski_k2 kNull) < theta_tol)
    ∧ skip_tol ≤ pyabs (minkowski_k2 kEx)
    ∧ P2_tensor kEx = some (P2fun (theta_fun kEx)) :=
  ⟨(theta_tensor_guard kNull).1, of_decide_eq_true (by with_unfolding_all rfl),
   (theta_tensor_guard kEx).2 (of_decide_eq_true (by with_unfolding_all rfl))⟩

/-- C8: the derived scalar field of the report generator
(`y = Pprime + 2*X0*P2prime` with its own literal `X0 = 1.0`) coincides,
for every record, with the scanner's `Zt = Pprime + 2.0*X0*P2prime`
(scanner `X0 = 1.0`): the two independently coded formulas define the same
function of `(Pprime, P2prime)`. -/
theorem report_y_eq_scanner_Zt (p p2 : ℚ) :
    healthy_band_y p p2 = (mkGridRec p p2).Zt ∧ report_X0 = X0 :=
  ⟨rfl, rfl⟩

/-- C1: for every swept four-vector k in the sampler's enumerated set,
exactly one output record is emitted when |norm2| >= 1e-8 and no record is
emitted when |norm2| < 1e-8; the skipped sample does not abort the batch
(every other swept vector still gets its record). -/
theorem sampler_emit_count (k : Fin 4 → ℚ) (h : k ∈ sweepKs) :
    (sampleRows.filter fun r =>
        r.omega == k 0 && r.kx == k 1 && r.ky == k 2 && r.kz == k 3).length
      = if skip_tol ≤ pyabs (minkowski_k2 k) then 1 else 0 := by
  have hall : ∀ x ∈ sweepKs,
      (sampleRows.filter fun r =>
          r.omega == x 0 && r.kx == x 1 && r.ky == x 2 && r.kz == x 3).length
        = if skip_tol ≤ pyabs (minkowski_k2 x) then 1 else 0 :=
    of_decide_eq_true (by with_unfolding_all rfl)
  exact hall k h

/-- Witness for C1 at the concrete swept vector `(2,1,0,0)`. -/
theorem sampler_emit_count_witness :
    kEx ∈ sweepKs
    ∧ (sampleRows.filter fun r =>
        r.omega == kEx 0 && r.kx == kEx 1 && r.ky == kEx 2 && r.kz == kEx 3).length
      = if skip_tol ≤ pyabs (minkowski_k2 kEx) then 1 else 0 :=
  ⟨of_decide_eq_true (by with_unfolding_all rfl),
   sampler_emit_count kEx (of_decide_eq_true (by with_unfolding_all rfl))⟩

/-- C7: with reference vector `(1,0,0,0)`, the swept vector `(1,1,0,0)` has
norm2 exactly 0 and is skipped (no record emitted), while `(2,1,0,0)` has
norm2 = -3, is not skipped, and its contraction is the finite scalar
128/27. -/
theorem sampler_concrete_samples :
    minkowski_k2 kNull = 0
    ∧ (sampleRows.filter fun r =>
        r.omega == kNull 0 && r.kx == kNull 1
          && r.ky == kNull 2 && r.kz == kNull 3).length = 0
    ∧ minkowski_k2 kEx = -3
    ∧ ((sampleRows.filter fun r =>
        r.omega == kEx 0 && r.kx == kEx 1
          && r.ky == kEx 2 && r.kz == kEx 3).map fun r => r.F2) = [128/27] :=
  ⟨of_decide_eq_true (by with_unfolding_all rfl),
   of_decide_eq_true (by with_unfolding_all rfl),
   of_decide_eq_true (by with_unfolding_all rfl),
   of_decide_eq_true (by with_unfolding_all rfl)⟩

/-- C10: of the 12 swept grid points, exactly the 3 with omega = kx —
`(0.5,0.5)`, `(1.0,1.0)`, `(1.5,1.5)` — have norm2 exactly 0 and are
skipped, so the sampler writes exactly 9 data rows. -/
theorem sampler_writes_nine_rows :
    sampleRows.length = 9
    ∧ sweepKs.length = 12
    ∧ ((sweepKs.filter fun k => minkowski_k2 k == 0).map fun k => (k 0, k 1))
        = [(1/2, 1/2), (1, 1), (3/2, 3/2)]
    ∧ (sampleRows.filter fun r => r.omega == r.kx).length = 0 :=
  ⟨of_decide_eq_true (by with_unfolding_all rfl),
   of_decide_eq_true (by with_unfolding_all rfl),
   of_decide_eq_true (by with_unfolding_all rfl),
   of_decide_eq_true (by with_unfolding_all rfl)⟩

/-- The scan loop's fuel is saturated: the while-loop stops by its own end
condition, not by fuel exhaustion (42 iterations already suffice). -/
theorem frange_fuel_saturates :
    frangeAux PPRIME_MAX PPRIME_STEP 10000 PPRIME_MIN
      = frangeAux PPRIME_MAX PPRIME_STEP 42 PPRIME_MIN :=
  of_decide_eq_true (by with_unfolding_all rfl)

set_option maxRecDepth 100000 in
/-- C3: the grid scanner writes exactly
`((PPRIME_MAX-PPRIME_MIN)/PPRIME_STEP + 1) *
((P2PRIME_MAX-P2PRIME_MIN)/P2PRIME_STEP + 1)` data rows — with the stated
defaults 41*41 = 1681 rows — one row per grid pair with no skipping. -/
theorem scan_row_count :
    scanRows.length = 1681
    ∧ scanRows.length
        = (frange PPRIME_MIN PPRIME_MAX PPRIME_STEP).length
          * (frange P2PRIME_MIN P2PRIME_MAX P2PRIME_STEP).length
    ∧ ((PPRIME_MAX - PPRIME_MIN) / PPRIME_STEP + 1)
        * ((P2PRIME_MAX - P2PRIME_MIN) / P2PRIME_STEP + 1) = (1681 : ℚ) :=
  ⟨of_decide_eq_true (by with_unfolding_all rfl),
   of_decide_eq_true (by with_unfolding_all rfl),
   of_decide_eq_true (by with_unfolding_all rfl)⟩

/-- C4: for every grid record, `ghost_ok` is the truth value of `Zt > 0`
and `grad_ok` that of `Zs > 0`, with `Zs = Pprime` and
`Zt = Pprime + 2*X0*P2prime`; `cs2` is present iff `ghost_ok`, and then
equals `Zs/Zt`. -/
theorem scan_record_fields (r : GridRec) (h : r ∈ scanRows) :
    r.Zs = r.Pprime
    ∧ r.Zt = r.Pprime + 2 * X0 * r.P2prime
    ∧ r.ghost_ok = decide (r.Zt > 0)
    ∧ r.grad_ok = decide (r.Zs > 0)
    ∧ (r.cs2.isSome ↔ r.ghost_ok = true)
    ∧ r.cs2 = (if r.Zt > 0 then some (r.Zs / r.Zt) else none) := by
  simp only [scanRows, List.mem_flatMap, List.mem_map] at h
  obtain ⟨a, -, b, -, rfl⟩ := h
  unfold mkGridRec
  by_cases hz : a + 2 * X0 * b > 0
  · simp [hz]
  · simp [hz]

/-- Witness for C4 at the scanner's first record, grid point `(-2,-2)`. -/
theorem scan_record_fields_witness :
    gr0 ∈ scanRows
    ∧ (gr0.Zs = gr0.Pprime
       ∧ gr0.Zt = gr0.Pprime + 2 * X0 * gr0.P2prime
       ∧ gr0.ghost_ok = decide (gr0.Zt > 0)
       ∧ gr0.grad_ok = decide (gr0.Zs > 0)
       ∧ (gr0.cs2.isSome ↔ gr0.ghost_ok = true)
       ∧ gr0.cs2 = (if gr0.Zt > 0 then some (gr0.Zs / gr0.Zt) else none)) :=
  ⟨of_decide_eq_true (by with_unfolding_all rfl),
   scan_record_fields gr0 (of_decide_eq_true (by with_unfolding_all rfl))⟩

/-- C5 as stated is false: a value strictly between 0 and 1e-12 is counted
both by `n_pos` and by `n_zero`, so the three counts exceed the total on
the one-element list `[1e-13]`. -/
theorem spin2_counts_exceed_total :
    ¬ (spin2_n_pos [1/10000000000000] + spin2_n_neg [1/10000000000000]
        + spin2_n_zero [1/10000000000000] ≤ spin2_total [1/10000000000000]) :=
  of_decide_eq_true (by with_unfolding_all rfl)

/-- C5 amended: for every input list, `n_pos + n_neg + n_zero` equals
`total` plus the number of values lying strictly inside the zero band
(`0 < |v| < 1e-12`); the stated inequality holds exactly when no such
value occurs. -/
theorem spin2_counts_identity (F2 : List ℚ) :
    spin2_n_pos F2 + spin2_n_neg F2 + spin2_n_zero F2
      = spin2_total F2
        + F2.countP fun v => decide (0 < pyabs v ∧ pyabs v < zero_tol) := by
  induction F2 with
  | nil => rfl
  | cons v l ih =>
    simp only [spin2_n_pos, spin2_n_neg, spin2_n_zero, spin2_total,
      List.countP_cons, List.length_cons] at ih ⊢
    rw [pyabs_eq_abs v]
    rcases lt_trichotomy v 0 with hv | hv | hv
    · have h1 : ¬ (v > 0) := by linarith
      have h2 : 0 < |v| := abs_pos.mpr (ne_of_lt hv)
      by_cases h3 : |v| < zero_tol <;>
        simp only [hv, h1, h2, h3, decide_eq_true_eq, and_true, and_false,
          iff_true, iff_false, eq_self_iff_true, if_true, if_false,
          eq_true hv, eq_true h2, eq_false h1, ite_true, ite_false] <;>
        omega
    · subst hv
      have h3 : |(0 : ℚ)| < zero_tol := by
        rw [abs_zero]; norm_num [zero_tol]
      have h1 : ¬ ((0 : ℚ) > 0) := lt_irrefl 0
      have h2 : ¬ (0 < |(0 : ℚ)|) := by rw [abs_zero]; exact lt_irrefl 0
      simp only [decide_eq_true_eq, eq_true h3, eq_false h1, eq_false h2,
        false_and, if_true, if_false, ite_true, ite_false, lt_irrefl]
      omega
    · have h1 : ¬ (v < 0) := by linarith
      have h2 : 0 < |v| := abs_pos.mpr (ne_of_gt hv)
      by_cases h3 : |v| < zero_tol <;>
        simp only [hv, h1, h2, h3, decide_eq_true_eq, true_and, and_true,
          and_false, eq_true hv, eq_true h2, eq_false h1, if_true, if_false,
          ite_true, ite_false] <;>
        omega
